import Mathlib

/-!
Shallow embedding of the obol identity-management engine
(`src/obol/obol.py`, class `Obol`) and proofs about its public
operations.

Modelling conventions, written once here and referenced below:

* The remote LDAP directory is the external collaborator.  Following the
  specification of its interface, it is modelled as a typed store of
  decoded user and group entries keyed by `uid` / `cn` (the DN key),
  with one primitive write per `add_s` / `modify_s` / `delete_s` /
  `rename_s` call and **no referential integrity or cascading**:
  deleting an entry never edits member lists of other entries.  A
  `MOD_ADD` of an attribute value that is already present fails
  (`attributeOrValueExists`), a `MOD_DELETE` of an absent value fails
  (`noSuchAttribute`), and a single `modify_s` call is atomic: if any
  of its sub-modifications fails, the entry is unchanged.  The user
  `memberOf` attribute is the reverse lookup of group member lists.
* Attribute values that the Python code stores as decimal strings
  (`uidNumber`, `gidNumber`) are modelled as `Nat`, and the
  `shadowExpire` / `shadowLastChange` day offsets as `Int`; string
  equality of canonical decimal forms is numeric equality.
* Group member values (`uid=<name>,ou=People,<base>`) are modelled by
  the decoded `<name>`: the codec between the two forms is a bijection
  that no claim below inspects.
* `int(time.time() / 86400)` is the `today` field of the ambient
  configuration; the SSHA salt-and-digest computation of `_make_secret`
  is the opaque `hash` field of the configuration (only its tagged
  pass-through branch matters to any claim below).
* Interactive password acquisition (`autogen_password`,
  `prompt_password`), home-directory filesystem work, audit printing
  and the `warn` flag of `group_delusers` do not touch directory state
  and are omitted.
* Every engine operation takes and returns a state `St` carrying the
  directory plus the ordered log of issued writes, together with
  `Option Err` — `none` for success.  A Python exception raised after
  some writes were issued is modelled by returning the mutated state
  together with the error, exactly as the real directory retains the
  writes issued before the exception.
-/

namespace Obol

/-- Error taxonomy mirroring the Python exception classes raised by the
engine (`ValueError`, `LookupError`, `NotImplementedError`, errors
surfaced by the python-ldap collaborator, `IndexError`). -/
inductive Err where
  | valueError (msg : String)
  | lookupError (msg : String)
  | notImplementedError (msg : String)
  | ldapError (msg : String)
  | indexError (msg : String)
deriving DecidableEq, Repr

/-- A single attribute modification of a user entry (`MOD_REPLACE`
tuples built by `user_modify`; replaces always succeed). -/
inductive UMod where
  | setCn (v : String)
  | setSn (v : String)
  | setGivenName (v : String)
  | setGidNumber (v : Nat)
  | setMail (v : String)
  | setPhone (v : String)
  | setShell (v : String)
  | setHome (v : String)
  | setExpire (v : Int)
  | setPassword (v : String)
deriving DecidableEq, Repr

/-- A single member-list modification of a group entry (`MOD_ADD` /
`MOD_DELETE` on the `member` attribute). -/
inductive GMod where
  | addMember (uname : String)
  | delMember (uname : String)
deriving DecidableEq, Repr

/-- One remote write issued through the directory connection
(`add_s`, `modify_s`, `delete_s`, `rename_s`), split by subtree as the
DNs are. -/
inductive WriteOp where
  | addUserEntry (uid : String)
  | addGroupEntry (cn : String)
  | modifyUserEntry (uid : String) (mods : List UMod)
  | modifyGroupEntry (cn : String) (mods : List GMod)
  | deleteUserEntry (uid : String)
  | deleteGroupEntry (cn : String)
  | renameGroupEntry (cn newCn : String)
deriving DecidableEq, Repr

/-- A decoded user entry (the fields of `Obol.user_fields` that live on
the entry; `memberOf` is derived, see `memberOfU`). -/
structure User where
  uid : String
  uidNumber : Nat
  gidNumber : Nat
  cn : String
  sn : String
  homeDirectory : String
  loginShell : String
  shadowMin : String
  shadowMax : String
  shadowWarning : String
  shadowExpire : Int
  shadowLastChange : Int
  givenName : Option String
  mail : Option String
  telephoneNumber : Option String
  userPassword : Option String
deriving DecidableEq, Repr

/-- A decoded group entry (`Obol.group_fields`): name, numeric id and
the decoded member list in attribute order. -/
structure Group where
  cn : String
  gidNumber : Nat
  member : List String
deriving DecidableEq, Repr

/-- The directory contents: the `ou=People` and `ou=Group` subtrees. -/
structure Dir where
  users : List User
  groups : List Group
deriving DecidableEq, Repr

/-- Engine state: directory contents plus the ordered log of writes
issued so far. -/
structure St where
  dir : Dir
  log : List WriteOp
deriving DecidableEq, Repr

/-- Ambient configuration: the `users` section of the config file, the
current day number and the salted digest of `_make_secret`. -/
structure Cfg where
  homeBase : String
  shell : String
  today : Int
  hash : String → String

/-- First user entry whose `uid` matches, as an LDAP search under
`ou=People` returns it (DNs are unique, so at most one exists). -/
def firstUser : List User → String → Option User
  | [], _ => none
  | u :: us, n => if u.uid = n then some u else firstUser us n

/-- First group entry whose `cn` matches. -/
def firstGroupByName : List Group → String → Option Group
  | [], _ => none
  | g :: gs, n => if g.cn = n then some g else firstGroupByName gs n

/-- First group entry whose `gidNumber` matches (the `[...][0]` list
comprehensions of the Python code). -/
def firstGroupByGid : List Group → Nat → Option Group
  | [], _ => none
  | g :: gs, i => if g.gidNumber = i then some g else firstGroupByGid gs i

/-- Replace the first user entry with the given `uid` by the image
under `f` (server side of a `modify_s` on a user DN). -/
def updateUser : List User → String → (User → User) → List User
  | [], _, _ => []
  | u :: us, n, f => if u.uid = n then f u :: us else u :: updateUser us n f

/-- Replace the first group entry with the given `cn` by `g`. -/
def replaceGroup : List Group → String → Group → List Group
  | [], _, _ => []
  | g0 :: gs, n, g => if g0.cn = n then g :: gs else g0 :: replaceGroup gs n g

/-- Remove the first user entry with the given `uid` (server side of
`delete_s` on a user DN). -/
def removeUser : List User → String → List User
  | [], _ => []
  | u :: us, n => if u.uid = n then us else u :: removeUser us n

/-- Remove the first group entry with the given `cn`. -/
def removeGroup : List Group → String → List Group
  | [], _ => []
  | g :: gs, n => if g.cn = n then gs else g :: removeGroup gs n

/-- The usernames present in the directory (`[u["uid"] for u in self.user_list()]`). -/
def userNames (d : Dir) : List String := d.users.map (fun u => u.uid)

/-- The group names present in the directory. -/
def groupNames (d : Dir) : List String := d.groups.map (fun g => g.cn)

/-- `Obol._username_exists`. -/
def usernameExists (d : Dir) (n : String) : Prop := ∃ u ∈ d.users, u.uid = n

instance (d : Dir) (n : String) : Decidable (usernameExists d n) :=
  inferInstanceAs (Decidable (∃ u ∈ d.users, u.uid = n))

/-- `Obol._groupname_exists`. -/
def groupnameExists (d : Dir) (n : String) : Prop := ∃ g ∈ d.groups, g.cn = n

instance (d : Dir) (n : String) : Decidable (groupnameExists d n) :=
  inferInstanceAs (Decidable (∃ g ∈ d.groups, g.cn = n))

/-- `Obol._uid_exists`. -/
def uidExists (d : Dir) (i : Nat) : Prop := ∃ u ∈ d.users, u.uidNumber = i

instance (d : Dir) (i : Nat) : Decidable (uidExists d i) :=
  inferInstanceAs (Decidable (∃ u ∈ d.users, u.uidNumber = i))

/-- `Obol._gid_exists`. -/
def gidExists (d : Dir) (i : Nat) : Prop := ∃ g ∈ d.groups, g.gidNumber = i

instance (d : Dir) (i : Nat) : Decidable (gidExists d i) :=
  inferInstanceAs (Decidable (∃ g ∈ d.groups, g.gidNumber = i))

/-- The derived `memberOf` attribute of a user: the names of the groups
whose member list contains the username, in group order. -/
def memberOfU (d : Dir) (uname : String) : List String :=
  (d.groups.filter (fun g => decide (uname ∈ g.member))).map (fun g => g.cn)

/-- Python `range(lo, hi)` as a list. -/
def pyRange (lo hi : Nat) : List Nat :=
  (List.range (hi - lo)).map (fun k => lo + k)

/-- Python `min` over a list, `none` on the empty list (where CPython
raises `ValueError: min() arg is an empty sequence`). -/
def pyMin : List Nat → Option Nat
  | [] => none
  | x :: xs =>
    match pyMin xs with
    | none => some x
    | some m => some (min x m)

/-- `Obol._next_id`: the smallest id in `[idMin, idMax)` not in
`idlist`; the empty-sequence `ValueError` of `min` when the range is
exhausted.  Marked irreducible so that proofs unfold it only through
its characterization lemmas (the literal range is far too large to
normalize term by term). -/
@[irreducible] def next_id (idlist : List Nat) (idMin idMax : Nat) : Except Err Nat :=
  match pyMin ((pyRange idMin idMax).filter (fun i => decide (i ∉ idlist))) with
  | some m => Except.ok m
  | none => Except.error (Err.valueError "min() arg is an empty sequence")

/-- `Obol._next_uid` (user range 1050-10000). -/
def next_uid (users : List User) : Except Err Nat :=
  next_id (users.map (fun u => u.uidNumber)) 1050 10000

/-- `Obol._next_gid` (group range 150-10000). -/
def next_gid (groups : List Group) : Except Err Nat :=
  next_id (groups.map (fun g => g.gidNumber)) 150 10000

/-- `Obol.user_show`: first match of an exact `uid` search, else
`LookupError`. -/
def userShow (d : Dir) (uname : String) : Except Err User :=
  match firstUser d.users uname with
  | some u => Except.ok u
  | none => Except.error (Err.lookupError ("User " ++ uname ++ " does not exist"))

/-- `Obol.group_show`: first match of an exact `cn` search, else
`LookupError`. -/
def groupShow (d : Dir) (gname : String) : Except Err Group :=
  match firstGroupByName d.groups gname with
  | some g => Except.ok g
  | none => Except.error (Err.lookupError ("Group " ++ gname ++ " does not exist"))

/-- Apply one `MOD_REPLACE` to a user entry. -/
def applyUMod (u : User) : UMod → User
  | UMod.setCn v => { u with cn := v }
  | UMod.setSn v => { u with sn := v }
  | UMod.setGivenName v => { u with givenName := some v }
  | UMod.setGidNumber v => { u with gidNumber := v }
  | UMod.setMail v => { u with mail := some v }
  | UMod.setPhone v => { u with telephoneNumber := some v }
  | UMod.setShell v => { u with loginShell := v }
  | UMod.setHome v => { u with homeDirectory := v }
  | UMod.setExpire v => { u with shadowExpire := v }
  | UMod.setPassword v => { u with userPassword := some v }

/-- Apply a list of user modifications (replaces always succeed). -/
def applyUMods (u : User) (ms : List UMod) : User := ms.foldl applyUMod u

/-- Apply one member-list modification; `MOD_ADD` of a present value
and `MOD_DELETE` of an absent value fail as the directory server
rejects them. -/
def applyGMod (g : Group) : GMod → Except Err Group
  | GMod.addMember x =>
    if x ∈ g.member then Except.error (Err.ldapError "attributeOrValueExists")
    else Except.ok { g with member := g.member ++ [x] }
  | GMod.delMember x =>
    if x ∈ g.member then Except.ok { g with member := g.member.erase x }
    else Except.error (Err.ldapError "noSuchAttribute")

/-- Apply a list of group modifications, failing atomically. -/
def applyGMods (g : Group) : List GMod → Except Err Group
  | [] => Except.ok g
  | m :: ms =>
    match applyGMod g m with
    | Except.ok g1 => applyGMods g1 ms
    | Except.error e => Except.error e

/-- `conn.add_s` on a user DN: log the write, fail on a DN collision. -/
def connAddUser (s : St) (u : User) : St × Option Err :=
  let s1 : St := { s with log := s.log ++ [WriteOp.addUserEntry u.uid] }
  if usernameExists s1.dir u.uid then (s1, some (Err.ldapError "entryAlreadyExists"))
  else ({ s1 with dir := { s1.dir with users := s1.dir.users ++ [u] } }, none)

/-- `conn.add_s` on a group DN. -/
def connAddGroup (s : St) (g : Group) : St × Option Err :=
  let s1 : St := { s with log := s.log ++ [WriteOp.addGroupEntry g.cn] }
  if groupnameExists s1.dir g.cn then (s1, some (Err.ldapError "entryAlreadyExists"))
  else ({ s1 with dir := { s1.dir with groups := s1.dir.groups ++ [g] } }, none)

/-- `conn.modify_s` on a user DN. -/
def connModifyUser (s : St) (uname : String) (ms : List UMod) : St × Option Err :=
  let s1 : St := { s with log := s.log ++ [WriteOp.modifyUserEntry uname ms] }
  if usernameExists s1.dir uname then
    ({ s1 with
        dir := { s1.dir with users := updateUser s1.dir.users uname (fun u => applyUMods u ms) } },
      none)
  else (s1, some (Err.ldapError "noSuchObject"))

/-- `conn.modify_s` on a group DN: atomic, and rejected whole if any
member modification is invalid. -/
def connModifyGroup (s : St) (gname : String) (ms : List GMod) : St × Option Err :=
  let s1 : St := { s with log := s.log ++ [WriteOp.modifyGroupEntry gname ms] }
  match firstGroupByName s1.dir.groups gname with
  | none => (s1, some (Err.ldapError "noSuchObject"))
  | some g =>
    match applyGMods g ms with
    | Except.error e => (s1, some e)
    | Except.ok g1 =>
      ({ s1 with dir := { s1.dir with groups := replaceGroup s1.dir.groups gname g1 } }, none)

/-- `conn.delete_s` on a user DN. -/
def connDeleteUser (s : St) (uname : String) : St × Option Err :=
  let s1 : St := { s with log := s.log ++ [WriteOp.deleteUserEntry uname] }
  if usernameExists s1.dir uname then
    ({ s1 with dir := { s1.dir with users := removeUser s1.dir.users uname } }, none)
  else (s1, some (Err.ldapError "noSuchObject"))

/-- `conn.delete_s` on a group DN. -/
def connDeleteGroup (s : St) (gname : String) : St × Option Err :=
  let s1 : St := { s with log := s.log ++ [WriteOp.deleteGroupEntry gname] }
  if groupnameExists s1.dir gname then
    ({ s1 with dir := { s1.dir with groups := removeGroup s1.dir.groups gname } }, none)
  else (s1, some (Err.ldapError "noSuchObject"))

/-- `conn.rename_s` on a group DN: keeps id and member list. -/
def connRenameGroup (s : St) (gname newName : String) : St × Option Err :=
  let s1 : St := { s with log := s.log ++ [WriteOp.renameGroupEntry gname newName] }
  match firstGroupByName s1.dir.groups gname with
  | none => (s1, some (Err.ldapError "noSuchObject"))
  | some _ =>
    if groupnameExists s1.dir newName then (s1, some (Err.ldapError "entryAlreadyExists"))
    else
      ({ s1 with
          dir := { s1.dir with
            groups := replaceGroup s1.dir.groups gname
              (match firstGroupByName s1.dir.groups gname with
                | some g => { g with cn := newName }
                | none => { cn := newName, gidNumber := 0, member := [] }) } },
        none)

/-- Sequence two stateful steps, short-circuiting on error but keeping
the mutated state (a raised exception does not undo issued writes). -/
def opSeq (r : St × Option Err) (k : St → St × Option Err) : St × Option Err :=
  match r with
  | (s, none) => k s
  | (s, some e) => (s, some e)

/-- Run a stateful step for each list element, stopping at the first
error. -/
def forEachSt (f : α → St → St × Option Err) : List α → St → St × Option Err
  | [], s => (s, none)
  | a :: as, s => opSeq (f a s) (forEachSt f as)

/-- `Obol._make_secret`: a password already carrying the SSHA tag is
stored verbatim; otherwise it is salted, digested and tagged (the
digest is the opaque `hash` of the configuration). -/
def make_secret (c : Cfg) (password : String) : String :=
  if "{SSHA}".isPrefixOf password then password else "{SSHA}" ++ c.hash password

/-- `Obol.group_addusers`: no-op when every supplied username is
already a member; else validate that all supplied usernames exist and
issue a single `modify_s` carrying one `MOD_ADD` per **supplied**
username. -/
def group_addusers (gname : String) (usernames : List String) (s : St) : St × Option Err :=
  match groupShow s.dir gname with
  | Except.error e => (s, some e)
  | Except.ok g =>
    if ∀ u ∈ usernames, u ∈ g.member then (s, none)
    else
      let incorrect := usernames.filter (fun u => decide (u ∉ userNames s.dir))
      if incorrect = [] then
        connModifyGroup s gname (usernames.map GMod.addMember)
      else
        (s, some (Err.valueError
          ("Users " ++ String.intercalate ", " incorrect ++ " do not exist")))

/-- `Obol.group_delusers`: validate that all supplied usernames exist,
then issue a single `modify_s` carrying one `MOD_DELETE` per existing
user whose uid is among the supplied names, whether or not it is
currently a member. -/
def group_delusers (gname : String) (usernames : List String) (s : St) : St × Option Err :=
  match groupShow s.dir gname with
  | Except.error e => (s, some e)
  | Except.ok _ =>
    let incorrect := usernames.filter (fun u => decide (u ∉ userNames s.dir))
    if incorrect = [] then
      connModifyGroup s gname
        ((s.dir.users.filter (fun u => decide (u.uid ∈ usernames))).map
          (fun u => GMod.delMember u.uid))
    else
      (s, some (Err.lookupError
        ("Users " ++ String.intercalate ", " incorrect ++ " do not exist")))

/-- `Obol.group_add`. -/
def group_add (gname : String) (gid : Option Nat) (users : Option (List String)) (s : St) :
    St × Option Err :=
  if groupnameExists s.dir gname then
    (s, some (Err.valueError ("Groupname " ++ gname ++ " already exists")))
  else
    match (match gid with
           | some gv =>
             if gidExists s.dir gv then Except.error (Err.valueError "GID already exists")
             else Except.ok gv
           | none => next_gid s.dir.groups) with
    | Except.error e => (s, some e)
    | Except.ok gv =>
      let ul := users.getD []
      let incorrect := ul.filter (fun u => decide (u ∉ userNames s.dir))
      if ul ≠ [] ∧ incorrect ≠ [] then
        (s, some (Err.valueError
          ("Users " ++ String.intercalate ", " incorrect ++ " do not exist")))
      else
        opSeq (connAddGroup s { cn := gname, gidNumber := gv, member := [] })
          (fun s1 => if ul = [] then (s1, none) else group_addusers gname ul s1)

/-- Group-linkage resolution of `Obol.user_add` (src lines 428-463).
When a groupname is supplied, the supplied gid is **overwritten** by the
named group before the cross-reference comparison runs (line 436), so
the comparison below can only ever see two equal names. -/
def resolveAddGroup (d : Dir) (username : String) (groupname : Option String)
    (gid : Option Nat) : Except Err (String × Nat × Bool) :=
  match groupname, gid with
  | none, none =>
    match firstGroupByName d.groups username with
    | some g0 => Except.ok (username, g0.gidNumber, false)
    | none =>
      match next_gid d.groups with
      | Except.ok gv => Except.ok (username, gv, true)
      | Except.error e => Except.error e
  | some n, _ =>
    match firstGroupByName d.groups n with
    | none => Except.error (Err.valueError ("Group " ++ n ++ " does not exist"))
    | some g0 =>
      match firstGroupByGid d.groups g0.gidNumber with
      | none => Except.error (Err.valueError "GID does not exist")
      | some gg =>
        match firstGroupByGid d.groups g0.gidNumber with
        | none => Except.error (Err.indexError "list index out of range")
        | some gg2 =>
          if gg.cn ≠ gg2.cn then
            Except.error (Err.valueError ("Group " ++ gg.cn ++ " does not have this gid"))
          else Except.ok (gg.cn, g0.gidNumber, false)
  | none, some gv =>
    match firstGroupByGid d.groups gv with
    | none => Except.error (Err.valueError "GID does not exist")
    | some gg =>
      match firstGroupByGid d.groups gv with
      | none => Except.error (Err.indexError "list index out of range")
      | some gg2 =>
        if gg.cn ≠ gg2.cn then
          Except.error (Err.valueError ("Group " ++ gg.cn ++ " does not have this gid"))
        else Except.ok (gg.cn, gv, false)

/-- `Obol.user_add`: uniqueness checks, id allocation, group-linkage
resolution, entry creation, optional default-group creation (owning the
new user), and a join of every requested secondary group **plus the
primary group** (src line 530). -/
def user_add (c : Cfg) (username : String) (cn sn given_name password : Option String)
    (uid gid : Option Nat) (mail phone shell : Option String)
    (groupname : Option String) (groups : Option (List String))
    (home : Option String) (expire : Option Int) (s : St) : St × Option Err :=
  if usernameExists s.dir username then
    (s, some (Err.valueError ("Username " ++ username ++ " already exists")))
  else
    match (match uid with
           | some uv =>
             if uidExists s.dir uv then Except.error (Err.valueError "UID already exists")
             else Except.ok uv
           | none => next_uid s.dir.users) with
    | Except.error e => (s, some e)
    | Except.ok uidv =>
      match resolveAddGroup s.dir username groupname gid with
      | Except.error e => (s, some e)
      | Except.ok (gnF, gidF, createGroup) =>
        let newUser : User :=
          { uid := username
            uidNumber := uidv
            gidNumber := gidF
            cn := cn.getD username
            sn := sn.getD username
            homeDirectory := home.getD (c.homeBase ++ "/" ++ username)
            loginShell := shell.getD c.shell
            shadowMin := "0"
            shadowMax := "99999"
            shadowWarning := "7"
            shadowExpire := match expire with
              | some e => if e ≠ -1 then e + c.today else -1
              | none => -1
            shadowLastChange := c.today
            givenName := given_name
            mail := mail
            telephoneNumber := phone
            userPassword := password.map (make_secret c) }
        opSeq (connAddUser s newUser) (fun s1 =>
        opSeq (if createGroup then group_add gnF (some gidF) (some [username]) s1
               else (s1, none)) (fun s2 =>
          forEachSt (fun g s3 => group_addusers g [username] s3)
            (groups.getD [] ++ [gnF]) s2))

/-- `Obol.user_delete`: delete the entry, then delete the group named
after the user only when its member list is empty; a missing group is
not an error. -/
def user_delete (username : String) (s : St) : St × Option Err :=
  if username ∈ userNames s.dir then
    opSeq (connDeleteUser s username) (fun s1 =>
      match groupShow s1.dir username with
      | Except.error _ => (s1, none)
      | Except.ok g =>
        if g.member.length = 0 then connDeleteGroup s1 g.cn
        else (s1, none))
  else (s, some (Err.lookupError ("User " ++ username ++ " does not exist")))

/-- `Obol.group_delete`: refused while the member list is non-empty. -/
def group_delete (gname : String) (s : St) : St × Option Err :=
  if gname ∈ groupNames s.dir then
    match groupShow s.dir gname with
    | Except.error e => (s, some e)
    | Except.ok g =>
      if g.member.length > 0 then
        (s, some (Err.valueError ("Group " ++ gname ++ " has members")))
      else connDeleteGroup s gname
  else (s, some (Err.lookupError ("Group " ++ gname ++ " does not exist")))

/-- Group-linkage resolution of `Obol.user_modify` (src lines 666-683):
unlike `user_add`, a supplied gid is compared against the named group
before being overwritten. -/
def resolveModifyGroup (d : Dir) (groupname : Option String) (gid : Option Nat) :
    Except Err (Option Nat) :=
  match groupname with
  | some n =>
    match firstGroupByName d.groups n with
    | none => Except.error (Err.valueError ("Group " ++ n ++ " does not exist"))
    | some g0 =>
      match gid with
      | some gv =>
        if gv ≠ g0.gidNumber then
          Except.error (Err.valueError ("Group " ++ n ++ " does not have this gid"))
        else Except.ok (some g0.gidNumber)
      | none => Except.ok (some g0.gidNumber)
  | none =>
    match gid with
    | some gv =>
      if gidExists d gv then Except.ok (some gv)
      else Except.error (Err.valueError "GID does not exist")
    | none => Except.ok none

/-- Build the singleton `MOD_REPLACE` list for an optionally supplied
field of `user_modify`. -/
def optMod (o : Option A) (f : A → UMod) : List UMod :=
  match o with
  | some v => [f v]
  | none => []

/-- `Obol.user_modify`: attribute replaces first, then (on any primary
group change, including to the same group) leave-old/join-new, then the
secondary membership diff. -/
def user_modify (c : Cfg) (username : String) (cn sn given_name password : Option String)
    (uid gid : Option Nat) (mail phone shell : Option String)
    (groupname : Option String) (groups : Option (List String))
    (home : Option String) (expire : Option Int) (s : St) : St × Option Err :=
  match userShow s.dir username with
  | Except.error e => (s, some e)
  | Except.ok xuser =>
    if uid.isSome then
      (s, some (Err.notImplementedError "changing UID of existing user is not supported"))
    else
      match resolveModifyGroup s.dir groupname gid with
      | Except.error e => (s, some e)
      | Except.ok gidR =>
        match (match gidR with
               | some gv =>
                 (match firstGroupByGid s.dir.groups gv with
                  | some gg =>
                    (match firstGroupByGid s.dir.groups xuser.gidNumber with
                     | some og => Except.ok (some (og.cn, gg.cn, gv))
                     | none => Except.error (Err.indexError "list index out of range"))
                  | none => Except.error (Err.indexError "list index out of range"))
               | none => Except.ok none) with
        | Except.error e => (s, some e)
        | Except.ok primChange =>
          match (match groups.getD [] with
                 | [] => Except.ok ([], [])
                 | gl =>
                   let incorrect := gl.filter (fun g => decide (g ∉ groupNames s.dir))
                   if incorrect = [] then
                     match firstGroupByGid s.dir.groups xuser.gidNumber with
                     | some pg =>
                       let mo := memberOfU s.dir username
                       Except.ok (gl.filter (fun g => decide (g ∉ mo)),
                                  mo.filter (fun g => decide (g ∉ gl ∧ g ≠ pg.cn)))
                     | none => Except.error (Err.indexError "list index out of range")
                   else
                     Except.error (Err.valueError
                       ("Groups " ++ String.intercalate ", " incorrect ++ " do not exist"))) with
          | Except.error e => (s, some e)
          | Except.ok (toAdd, toDel) =>
            let mods : List UMod :=
              optMod cn UMod.setCn ++ optMod sn UMod.setSn ++
              optMod given_name UMod.setGivenName ++
              (match primChange with
               | some (_, _, gv) => [UMod.setGidNumber gv]
               | none => []) ++
              optMod mail UMod.setMail ++ optMod phone UMod.setPhone ++
              optMod shell UMod.setShell ++ optMod home UMod.setHome ++
              (match expire with
               | some e => [UMod.setExpire (if e ≠ -1 then e + c.today else e)]
               | none => []) ++
              (match password with
               | some p => [UMod.setPassword (make_secret c p)]
               | none => [])
            opSeq (connModifyUser s username mods) (fun s1 =>
            opSeq (match primChange with
                   | some (oldName, newName, _) =>
                     opSeq (group_delusers oldName [username] s1) (fun s2 =>
                       group_addusers newName [username] s2)
                   | none => (s1, none)) (fun s3 =>
            opSeq (forEachSt (fun g s4 => group_addusers g [username] s4) toAdd s3) (fun s5 =>
              forEachSt (fun g s6 => group_delusers g [username] s6) toDel s5)))

/-- `Obol.group_modify` (src lines 757-802): the desired member list is
reconciled by adding desired non-members and deleting every current
member that is not a primary-group user of this group — the current
members absent from the desired list are **not** singled out (the
filter against `users` is missing in the source). -/
def group_modify (gname : String) (gid : Option Nat) (users : Option (List String)) (s : St) :
    St × Option Err :=
  match groupShow s.dir gname with
  | Except.error e => (s, some e)
  | Except.ok xg =>
    if gid.isSome then
      (s, some (Err.notImplementedError "changing GID of existing group is not supported"))
    else
      match (match users with
             | none => Except.ok ([], [])
             | some ul =>
               let incorrect := ul.filter (fun u => decide (u ∉ userNames s.dir))
               if incorrect = [] then
                 let primaryUs := (s.dir.users.filter
                   (fun u => decide (u.gidNumber = xg.gidNumber))).map (fun u => u.uid)
                 Except.ok (ul.filter (fun u => decide (u ∉ xg.member)),
                            xg.member.filter (fun u => decide (u ∉ primaryUs)))
               else
                 Except.error (Err.valueError
                   ("Users " ++ String.intercalate ", " incorrect ++ " do not exist"))) with
      | Except.error e => (s, some e)
      | Except.ok (toAdd, toDel) =>
        opSeq (connModifyGroup s gname []) (fun s1 =>
        opSeq (group_addusers gname toAdd s1) (fun s2 =>
          group_delusers gname toDel s2))

/-- `Obol.group_rename`. -/
def group_rename (gname newName : String) (s : St) : St × Option Err :=
  if groupnameExists s.dir gname then
    if groupnameExists s.dir newName then
      (s, some (Err.valueError ("Group " ++ newName ++ " already exists")))
    else connRenameGroup s gname newName
  else (s, some (Err.lookupError ("Group " ++ gname ++ " does not exist")))

/-- One exported user: the decoded entry together with its derived
`memberOf` attribute, as `user_list` returns it. -/
structure UserEntryExport where
  entry : User
  memberOf : List String
deriving DecidableEq, Repr

/-- The structure returned by `Obol.export_`. -/
structure ExportData where
  users : List UserEntryExport
  groups : List Group
deriving DecidableEq, Repr

/-- `Obol.export_`: the full decoded listing of both subtrees. -/
def obolExport (d : Dir) : ExportData :=
  { users := d.users.map (fun u => { entry := u, memberOf := memberOfU d u.uid }),
    groups := d.groups }

/-- Group phase of `Obol.import_`: replay `group_add` by name and id,
without members; every per-group failure is caught and reported, and
the batch continues. -/
def importGroups : List Group → St → St
  | [], s => s
  | g :: gs, s => importGroups gs (group_add g.cn (some g.gidNumber) none s).1

/-- User phase of `Obol.import_`: replay `user_add` passing every
recorded attribute through, the recorded `memberOf` as the `groups`
argument and the recorded `shadowExpire` as the `expire` argument; only
`ValueError` is caught, any other failure aborts the batch. -/
def importUsers (c : Cfg) : List UserEntryExport → St → St × Option Err
  | [], s => (s, none)
  | ux :: rest, s =>
    match user_add c ux.entry.uid (some ux.entry.cn) (some ux.entry.sn) ux.entry.givenName
        ux.entry.userPassword (some ux.entry.uidNumber) (some ux.entry.gidNumber)
        ux.entry.mail ux.entry.telephoneNumber (some ux.entry.loginShell) none
        (some ux.memberOf) (some ux.entry.homeDirectory) (some ux.entry.shadowExpire) s with
    | (s1, none) => importUsers c rest s1
    | (s1, some (Err.valueError _)) => importUsers c rest s1
    | (s1, some e) => (s1, some e)

/-- `Obol.import_`: groups first, then users. -/
def obolImport (c : Cfg) (data : ExportData) (s : St) : St × Option Err :=
  importUsers c data.users (importGroups data.groups s)

/-- `Obol.erase_`: delete every user, then every group. -/
def obolErase (s : St) : St × Option Err :=
  opSeq (forEachSt user_delete (userNames s.dir) s) (fun s1 =>
    forEachSt group_delete (groupNames s1.dir) s1)

/-! ## Proof layer: helper lemmas and the claim theorems -/

deriving instance DecidableEq for Except

theorem pyMin_eq_none {L : List Nat} : pyMin L = none ↔ L = [] := by
  cases L with
  | nil => simp [pyMin]
  | cons x xs =>
    simp only [pyMin]
    cases h : pyMin xs <;> simp

theorem pyMin_mem {L : List Nat} {m : Nat} (h : pyMin L = some m) : m ∈ L := by
  induction L generalizing m with
  | nil => simp [pyMin] at h
  | cons x xs ih =>
    simp only [pyMin] at h
    cases hx : pyMin xs with
    | none => rw [hx] at h; simp at h; simp [h]
    | some k =>
      rw [hx] at h
      simp only [Option.some.injEq] at h
      rcases le_total x k with h1 | h1
      · rw [min_eq_left h1] at h; simp [h]
      · rw [min_eq_right h1] at h; exact List.mem_cons_of_mem _ (h ▸ ih hx)

theorem pyMin_le {L : List Nat} {m : Nat} (h : pyMin L = some m) :
    ∀ x ∈ L, m ≤ x := by
  induction L generalizing m with
  | nil => simp
  | cons x xs ih =>
    simp only [pyMin] at h
    cases hx : pyMin xs with
    | none =>
      rw [hx] at h
      simp only [Option.some.injEq] at h
      subst h
      have hxs : xs = [] := pyMin_eq_none.mp hx
      subst hxs
      simp
    | some k =>
      rw [hx] at h
      simp only [Option.some.injEq] at h
      subst h
      intro y hy
      rcases List.mem_cons.mp hy with rfl | hy
      · exact min_le_left _ _
      · exact le_trans (min_le_right _ _) (ih hx y hy)

theorem pyMin_eq_some_of {L : List Nat} {m : Nat} (hm : m ∈ L) (hle : ∀ x ∈ L, m ≤ x) :
    pyMin L = some m := by
  induction L with
  | nil => simp at hm
  | cons x xs ih =>
    simp only [pyMin]
    cases hx : pyMin xs with
    | none =>
      have hxs : xs = [] := pyMin_eq_none.mp hx
      subst hxs
      simp at hm
      simp [hm]
    | some k =>
      have hk : k ∈ xs := pyMin_mem hx
      rcases List.mem_cons.mp hm with rfl | hm2
      · have h2 : m ≤ k := hle k (List.mem_cons_of_mem _ hk)
        simp [min_eq_left h2]
      · have h1 : k ≤ m := pyMin_le hx m hm2
        have h2 : m ≤ k := hle k (List.mem_cons_of_mem _ hk)
        have h3 : m ≤ x := hle x (List.mem_cons_self _ _)
        have h4 : k = m := le_antisymm h1 h2
        subst h4
        simp [min_eq_right h3]

theorem mem_pyRange {lo hi m : Nat} : m ∈ pyRange lo hi ↔ lo ≤ m ∧ m < hi := by
  simp only [pyRange, List.mem_map, List.mem_range]
  constructor
  · rintro ⟨k, hk, rfl⟩; omega
  · rintro ⟨h1, h2⟩; exact ⟨m - lo, by omega, by omega⟩

theorem next_id_eq_ok (idlist : List Nat) (lo hi n : Nat)
    (h1 : lo ≤ n) (h2 : n < hi) (h3 : n ∉ idlist)
    (h4 : ∀ m ∈ pyRange lo n, m ∈ idlist) :
    next_id idlist lo hi = Except.ok n := by
  have hmem : n ∈ (pyRange lo hi).filter (fun i => decide (i ∉ idlist)) := by
    rw [List.mem_filter]
    exact ⟨mem_pyRange.mpr ⟨h1, h2⟩, by simpa using h3⟩
  have hle : ∀ x ∈ (pyRange lo hi).filter (fun i => decide (i ∉ idlist)), n ≤ x := by
    intro x hx
    rw [List.mem_filter] at hx
    obtain ⟨hxr, hxf⟩ := hx
    have hxr2 := mem_pyRange.mp hxr
    by_contra hlt
    have hxi : x ∈ idlist := h4 x (mem_pyRange.mpr ⟨hxr2.1, by omega⟩)
    simp at hxf
    exact hxf hxi
  unfold next_id
  rw [pyMin_eq_some_of hmem hle]

theorem next_id_eq_error (idlist : List Nat) (lo hi : Nat)
    (h : ∀ m ∈ pyRange lo hi, m ∈ idlist) :
    next_id idlist lo hi = Except.error (Err.valueError "min() arg is an empty sequence") := by
  have hnil : (pyRange lo hi).filter (fun i => decide (i ∉ idlist)) = [] := by
    rw [List.filter_eq_nil_iff]
    intro a ha
    simpa using h a ha
  unfold next_id
  rw [hnil]
  rfl

/-- Claim C9 (confirmed): for every range and used-id list, the id
allocator returns the smallest integer of the half-open range absent
from the used list, and when the used ids cover the whole range it
fails with the empty-sequence error of the underlying min instead of
returning a value. -/
theorem C9_next_id_correct (idlist : List Nat) (lo hi : Nat) :
    (∀ n, next_id idlist lo hi = Except.ok n →
       lo ≤ n ∧ n < hi ∧ n ∉ idlist ∧ ∀ m, lo ≤ m → m < hi → m ∉ idlist → n ≤ m)
  ∧ ((∀ m, lo ≤ m → m < hi → m ∈ idlist) →
       next_id idlist lo hi = Except.error (Err.valueError "min() arg is an empty sequence"))
  ∧ (∀ n, lo ≤ n → n < hi → n ∉ idlist → ∃ k, next_id idlist lo hi = Except.ok k) := by
  refine ⟨?_, ?_, ?_⟩
  · intro n hn
    unfold next_id at hn
    cases hpm : pyMin ((pyRange lo hi).filter (fun i => decide (i ∉ idlist))) with
    | none => rw [hpm] at hn; simp at hn
    | some m =>
      rw [hpm] at hn
      simp only [Except.ok.injEq] at hn
      subst hn
      have hmem := pyMin_mem hpm
      rw [List.mem_filter] at hmem
      obtain ⟨hr, hf⟩ := hmem
      have hr2 := mem_pyRange.mp hr
      refine ⟨hr2.1, hr2.2, by simpa using hf, ?_⟩
      intro m hm1 hm2 hm3
      exact pyMin_le hpm m (List.mem_filter.mpr ⟨mem_pyRange.mpr ⟨hm1, hm2⟩, by simpa using hm3⟩)
  · intro h
    exact next_id_eq_error idlist lo hi (fun m hm => h m (mem_pyRange.mp hm).1 (mem_pyRange.mp hm).2)
  · intro n h1 h2 h3
    unfold next_id
    cases hpm : pyMin ((pyRange lo hi).filter (fun i => decide (i ∉ idlist))) with
    | none =>
      have := pyMin_eq_none.mp hpm
      have hmem : n ∈ (pyRange lo hi).filter (fun i => decide (i ∉ idlist)) :=
        List.mem_filter.mpr ⟨mem_pyRange.mpr ⟨h1, h2⟩, by simpa using h3⟩
      rw [this] at hmem
      simp at hmem
    | some k => exact ⟨k, rfl⟩

/-- Witness for C9 at a concrete input: range 150-153 with 150 and 151
in use allocates 152. -/
theorem C9_witness :
    150 ≤ 152 ∧ 152 < 153 ∧ 152 ∉ [150, 151] ∧
      (∀ m, 150 ≤ m → m < 153 → m ∉ [150, 151] → 152 ≤ m) :=
  (C9_next_id_correct [150, 151] 150 153).1 152
    (next_id_eq_ok [150, 151] 150 153 152 (by omega) (by omega) (by decide) (by decide))

/-- A concrete configuration used by the closed runs below: default home
base and shell from the config file, a fixed current day number, and a
placeholder digest (never invoked on any of the inputs below). -/
def obolCfg : Cfg :=
  { homeBase := "/home", shell := "/bin/bash", today := 20000, hash := fun _ => "H" }

/-- The empty directory with an empty write log. -/
def emptySt : St := { dir := { users := [], groups := [] }, log := [] }

theorem next_uid_nil : next_uid ([] : List User) = Except.ok 1050 := by
  unfold next_uid
  simp only [List.map_nil]
  exact next_id_eq_ok _ _ _ _ (by omega) (by omega) (by simp) (by simp [pyRange])

theorem next_gid_nil : next_gid ([] : List Group) = Except.ok 150 := by
  unfold next_gid
  simp only [List.map_nil]
  exact next_id_eq_ok _ _ _ _ (by omega) (by omega) (by simp) (by simp [pyRange])


theorem next_gid_dev :
    next_gid [{ cn := "dev", gidNumber := 150, member := [] }] = Except.ok 151 := by
  unfold next_gid
  simp only [List.map_cons, List.map_nil]
  exact next_id_eq_ok _ _ _ _ (by omega) (by omega) (by decide) (by decide)


theorem firstGroupByName_cn {l : List Group} {n : String} {g : Group}
    (h : firstGroupByName l n = some g) : g.cn = n := by
  induction l with
  | nil => simp [firstGroupByName] at h
  | cons g0 gs ih =>
    simp only [firstGroupByName] at h
    split at h
    · cases h; assumption
    · exact ih h

theorem firstUser_uid {l : List User} {n : String} {u : User}
    (h : firstUser l n = some u) : u.uid = n := by
  induction l with
  | nil => simp [firstUser] at h
  | cons u0 us ih =>
    simp only [firstUser] at h
    split at h
    · cases h; assumption
    · exact ih h

theorem firstGroupByName_append_none {l : List Group} {n : String} {g : Group}
    (h : firstGroupByName l n = none) (hg : g.cn = n) :
    firstGroupByName (l ++ [g]) n = some g := by
  induction l with
  | nil => simp [firstGroupByName, hg]
  | cons g0 gs ih =>
    rw [List.cons_append]
    simp only [firstGroupByName] at h ⊢
    split at h
    · cases h
    · rw [if_neg (by assumption)]
      exact ih h

theorem replaceGroup_append_none {l : List Group} {n : String} {g g1 : Group}
    (h : firstGroupByName l n = none) (hg : g.cn = n) :
    replaceGroup (l ++ [g]) n g1 = l ++ [g1] := by
  induction l with
  | nil => simp [replaceGroup, hg]
  | cons g0 gs ih =>
    rw [List.cons_append]
    simp only [firstGroupByName] at h
    split at h
    · cases h
    · simp only [replaceGroup]
      rw [if_neg (by assumption), ih h]
      simp

theorem firstGroupByName_replaceGroup {l : List Group} {n : String} {g g1 : Group}
    (h : firstGroupByName l n = some g) (hg : g1.cn = n) :
    firstGroupByName (replaceGroup l n g1) n = some g1 := by
  induction l with
  | nil => simp [firstGroupByName] at h
  | cons g0 gs ih =>
    simp only [firstGroupByName, replaceGroup] at h ⊢
    split at h
    · rw [if_pos (by assumption)]
      simp only [firstGroupByName]
      rw [if_pos hg]
    · rw [if_neg (by assumption)]
      simp only [firstGroupByName]
      rw [if_neg (by assumption)]
      exact ih h

theorem replaceGroup_replaceGroup {l : List Group} {n : String} {g g1 g2 : Group}
    (h : firstGroupByName l n = some g) (hg : g1.cn = n) :
    replaceGroup (replaceGroup l n g1) n g2 = replaceGroup l n g2 := by
  induction l with
  | nil => simp [replaceGroup]
  | cons g0 gs ih =>
    simp only [firstGroupByName, replaceGroup] at h ⊢
    split at h
    · rw [if_pos (by assumption), if_pos (by assumption)]
      simp only [replaceGroup]
      rw [if_pos hg]
    · rw [if_neg (by assumption), if_neg (by assumption)]
      simp only [replaceGroup]
      rw [if_neg (by assumption), ih h]

theorem updateUser_id {l : List User} {n : String} {f : User → User}
    (h : ∀ u ∈ l, u.uid = n → f u = u) : updateUser l n f = l := by
  induction l with
  | nil => simp [updateUser]
  | cons u us ih =>
    simp only [updateUser]
    split
    · rw [h u (List.mem_cons_self _ _) (by assumption)]
    · rw [ih (fun v hv => h v (List.mem_cons_of_mem _ hv))]

theorem usernameExists_iff {d : Dir} {n : String} :
    usernameExists d n ↔ n ∈ userNames d := by
  simp [usernameExists, userNames]

theorem groupnameExists_iff {d : Dir} {n : String} :
    groupnameExists d n ↔ n ∈ groupNames d := by
  simp [groupnameExists, groupNames]

theorem mem_firstGroupByName {l : List Group} {n : String} {g : Group}
    (h : firstGroupByName l n = some g) : g ∈ l := by
  induction l with
  | nil => simp [firstGroupByName] at h
  | cons g0 gs ih =>
    simp only [firstGroupByName] at h
    split at h
    · cases h; exact List.mem_cons_self _ _
    · exact List.mem_cons_of_mem _ (ih h)

theorem groupnameExists_of_first {d : Dir} {n : String} {g : Group}
    (h : firstGroupByName d.groups n = some g) : groupnameExists d n :=
  ⟨g, mem_firstGroupByName h, firstGroupByName_cn h⟩

theorem firstGroupByName_none_iff {l : List Group} {n : String} :
    firstGroupByName l n = none ↔ ∀ g ∈ l, g.cn ≠ n := by
  induction l with
  | nil => simp [firstGroupByName]
  | cons g0 gs ih =>
    simp only [firstGroupByName]
    split
    · simp_all
    · simp_all

theorem connModifyGroup_ok {s : St} {gname : String} {ms : List GMod} {g g1 : Group}
    (h : firstGroupByName s.dir.groups gname = some g)
    (ha : applyGMods g ms = Except.ok g1) :
    connModifyGroup s gname ms =
      ({ dir := { users := s.dir.users, groups := replaceGroup s.dir.groups gname g1 },
         log := s.log ++ [WriteOp.modifyGroupEntry gname ms] }, none) := by
  simp only [connModifyGroup, h, ha]

theorem connModifyGroup_err {s : St} {gname : String} {ms : List GMod} {g : Group} {e : Err}
    (h : firstGroupByName s.dir.groups gname = some g)
    (ha : applyGMods g ms = Except.error e) :
    connModifyGroup s gname ms =
      ({ dir := s.dir, log := s.log ++ [WriteOp.modifyGroupEntry gname ms] }, some e) := by
  simp only [connModifyGroup, h, ha]

theorem not_groupnameExists_of_none {d : Dir} {n : String}
    (h : firstGroupByName d.groups n = none) : ¬ groupnameExists d n := by
  rw [firstGroupByName_none_iff] at h
  rintro ⟨g, hg, rfl⟩
  exact h g hg rfl

theorem group_addusers_noop {s : St} {gname : String} {usernames : List String} {G : Group}
    (hG : firstGroupByName s.dir.groups gname = some G)
    (hall : ∀ u ∈ usernames, u ∈ G.member) :
    group_addusers gname usernames s = (s, none) := by
  simp only [group_addusers, groupShow, hG, if_pos hall]

theorem group_addusers_eq_modify {s : St} {gname : String} {usernames : List String} {G : Group}
    (hG : firstGroupByName s.dir.groups gname = some G)
    (hnall : ¬ ∀ u ∈ usernames, u ∈ G.member)
    (hinc : usernames.filter (fun u => decide (u ∉ userNames s.dir)) = []) :
    group_addusers gname usernames s =
      connModifyGroup s gname (usernames.map GMod.addMember) := by
  simp only [group_addusers, groupShow, hG, if_neg hnall, hinc, ite_true]

theorem group_addusers_unknown {s : St} {gname : String} {usernames : List String} {G : Group}
    (hG : firstGroupByName s.dir.groups gname = some G)
    (hnall : ¬ ∀ u ∈ usernames, u ∈ G.member)
    (hinc : usernames.filter (fun u => decide (u ∉ userNames s.dir)) ≠ []) :
    group_addusers gname usernames s =
      (s, some (Err.valueError
        ("Users " ++
          String.intercalate ", " (usernames.filter (fun u => decide (u ∉ userNames s.dir))) ++
          " do not exist"))) := by
  simp only [group_addusers, groupShow, hG, if_neg hnall, if_neg hinc]

theorem group_delusers_eq_modify {s : St} {gname : String} {usernames : List String} {G : Group}
    (hG : firstGroupByName s.dir.groups gname = some G)
    (hinc : usernames.filter (fun u => decide (u ∉ userNames s.dir)) = []) :
    group_delusers gname usernames s =
      connModifyGroup s gname
        ((s.dir.users.filter (fun u => decide (u.uid ∈ usernames))).map
          (fun u => GMod.delMember u.uid)) := by
  simp only [group_delusers, groupShow, hG, hinc, ite_true]

theorem connAddUser_ok {s : St} {u : User}
    (h : ¬ usernameExists s.dir u.uid) :
    connAddUser s u =
      ({ dir := { users := s.dir.users ++ [u], groups := s.dir.groups },
         log := s.log ++ [WriteOp.addUserEntry u.uid] }, none) := by
  simp only [connAddUser, h, ite_false]

theorem connAddGroup_ok {s : St} {g : Group}
    (h : ¬ groupnameExists s.dir g.cn) :
    connAddGroup s g =
      ({ dir := { users := s.dir.users, groups := s.dir.groups ++ [g] },
         log := s.log ++ [WriteOp.addGroupEntry g.cn] }, none) := by
  simp only [connAddGroup, h, ite_false]




theorem group_add_alloc_run (gname : String) (gv : Nat) (s : St)
    (hnone : firstGroupByName s.dir.groups gname = none)
    (hgid : next_gid s.dir.groups = Except.ok gv) :
    group_add gname none none s =
      ({ dir := { users := s.dir.users,
                  groups := s.dir.groups ++ [{ cn := gname, gidNumber := gv, member := [] }] },
         log := s.log ++ [WriteOp.addGroupEntry gname] }, none) := by
  unfold group_add
  rw [if_neg (not_groupnameExists_of_none hnone)]
  simp only [hgid]
  simp only [Option.getD_none, List.filter_nil, ne_eq, not_true_eq_false, and_false, ite_false]
  rw [connAddGroup_ok (not_groupnameExists_of_none hnone)]
  simp only [opSeq, ite_true]

theorem group_add_default_owner (gname : String) (gv : Nat) (uname : String) (s : St)
    (hnone : firstGroupByName s.dir.groups gname = none)
    (hgv : ¬ gidExists s.dir gv)
    (hu : uname ∈ userNames s.dir) :
    group_add gname (some gv) (some [uname]) s =
      ({ dir := { users := s.dir.users,
                  groups := s.dir.groups ++ [{ cn := gname, gidNumber := gv, member := [uname] }] },
         log := s.log ++ [WriteOp.addGroupEntry gname,
                          WriteOp.modifyGroupEntry gname [GMod.addMember uname]] }, none) := by
  have ha : applyGMods { cn := gname, gidNumber := gv, member := [] }
      [GMod.addMember uname] = Except.ok { cn := gname, gidNumber := gv, member := [uname] } := by
    simp [applyGMods, applyGMod]
  have hG0 : firstGroupByName (s.dir.groups ++ [{ cn := gname, gidNumber := gv, member := [] }])
      gname = some { cn := gname, gidNumber := gv, member := [] } :=
    firstGroupByName_append_none hnone rfl
  have hrg : replaceGroup (s.dir.groups ++ [{ cn := gname, gidNumber := gv, member := [] }])
      gname { cn := gname, gidNumber := gv, member := [uname] } =
      s.dir.groups ++ [{ cn := gname, gidNumber := gv, member := [uname] }] :=
    replaceGroup_append_none hnone rfl
  unfold group_add
  rw [if_neg (not_groupnameExists_of_none hnone)]
  simp only [if_neg hgv]
  simp only [Option.getD_some, List.filter_cons, List.filter_nil, hu, not_true_eq_false,
    decide_False, Bool.false_eq_true, ite_false, ne_eq, and_false]
  rw [connAddGroup_ok (not_groupnameExists_of_none hnone)]
  simp only [opSeq]
  rw [if_neg (by simp)]
  rw [group_addusers_eq_modify hG0 (by simp)
        (by simp only [List.filter_cons, List.filter_nil]
            rw [if_neg (by simpa [userNames] using hu)])]
  simp only [List.map_cons, List.map_nil]
  rw [connModifyGroup_ok hG0 ha]
  simp [hrg]

theorem opSeq_ok {r : St × Option Err} {s1 : St} (h : r = (s1, none))
    (k : St → St × Option Err) : opSeq r k = k s1 := by
  rw [h]
  rfl

theorem user_add_default_run (c : Cfg) (username : String) (uidv gidv : Nat) (s : St)
    (hname : ¬ usernameExists s.dir username)
    (huid : next_uid s.dir.users = Except.ok uidv)
    (hgnone : firstGroupByName s.dir.groups username = none)
    (hgid : next_gid s.dir.groups = Except.ok gidv)
    (hgidfresh : ¬ gidExists s.dir gidv) :
    user_add c username none none none none none none none none none none none none none s =
      ({ dir := { users := s.dir.users ++
                    [{ uid := username, uidNumber := uidv, gidNumber := gidv,
                       cn := username, sn := username,
                       homeDirectory := c.homeBase ++ "/" ++ username, loginShell := c.shell,
                       shadowMin := "0", shadowMax := "99999", shadowWarning := "7",
                       shadowExpire := -1, shadowLastChange := c.today,
                       givenName := none, mail := none, telephoneNumber := none,
                       userPassword := none }],
                  groups := s.dir.groups ++
                    [{ cn := username, gidNumber := gidv, member := [username] }] },
         log := s.log ++ [WriteOp.addUserEntry username, WriteOp.addGroupEntry username,
                          WriteOp.modifyGroupEntry username [GMod.addMember username]] },
       none) := by
  obtain ⟨⟨users, groups⟩, log⟩ := s
  simp only at hname huid hgnone hgid hgidfresh
  unfold user_add
  rw [if_neg hname]
  simp only [huid]
  unfold resolveAddGroup
  simp only [hgnone, hgid]
  simp only [Option.getD_none, Option.map_none']
  rw [opSeq_ok (connAddUser_ok hname)]
  simp only [ite_true]
  rw [opSeq_ok (group_add_default_owner username gidv username _ hgnone hgidfresh
        (by simp [userNames]))]
  simp only [List.nil_append, forEachSt]
  rw [opSeq_ok (group_addusers_noop (firstGroupByName_append_none hgnone rfl) (by simp))]
  simp [List.append_assoc]

theorem connModifyUser_ok {s : St} {uname : String} {ms : List UMod}
    (h : usernameExists s.dir uname) :
    connModifyUser s uname ms =
      ({ dir := { users := updateUser s.dir.users uname (fun u => applyUMods u ms),
                  groups := s.dir.groups },
         log := s.log ++ [WriteOp.modifyUserEntry uname ms] }, none) := by
  simp only [connModifyUser, h, ite_true]

theorem connDeleteUser_ok {s : St} {uname : String}
    (h : usernameExists s.dir uname) :
    connDeleteUser s uname =
      ({ dir := { users := removeUser s.dir.users uname, groups := s.dir.groups },
         log := s.log ++ [WriteOp.deleteUserEntry uname] }, none) := by
  simp only [connDeleteUser, h, ite_true]

theorem connDeleteGroup_ok {s : St} {gname : String}
    (h : groupnameExists s.dir gname) :
    connDeleteGroup s gname =
      ({ dir := { users := s.dir.users, groups := removeGroup s.dir.groups gname },
         log := s.log ++ [WriteOp.deleteGroupEntry gname] }, none) := by
  simp only [connDeleteGroup, h, ite_true]

theorem applyGMods_addMember_single {g : Group} {x : String} (h : x ∉ g.member) :
    applyGMods g [GMod.addMember x] =
      Except.ok { cn := g.cn, gidNumber := g.gidNumber, member := g.member ++ [x] } := by
  simp [applyGMods, applyGMod, h]

theorem applyGMods_delMember_single_ok {g : Group} {x : String} (h : x ∈ g.member) :
    applyGMods g [GMod.delMember x] =
      Except.ok { cn := g.cn, gidNumber := g.gidNumber, member := g.member.erase x } := by
  simp [applyGMods, applyGMod, h]

theorem applyGMods_delMember_single_err {g : Group} {x : String} (h : x ∉ g.member) :
    applyGMods g [GMod.delMember x] = Except.error (Err.ldapError "noSuchAttribute") := by
  simp [applyGMods, applyGMod, h]

theorem applyGMods_addMember_err {g : Group} {usernames : List String}
    (h : ∃ u ∈ usernames, u ∈ g.member) :
    ∃ e, applyGMods g (usernames.map GMod.addMember) = Except.error e := by
  induction usernames generalizing g with
  | nil => simp at h
  | cons v rest ih =>
    simp only [List.map_cons, applyGMods, applyGMod]
    by_cases hv : v ∈ g.member
    · exact ⟨Err.ldapError "attributeOrValueExists", by simp [hv]⟩
    · rw [if_neg hv]
      obtain ⟨u, hu, hum⟩ := h
      rcases List.mem_cons.mp hu with rfl | hur
      · exact absurd hum hv
      · exact ih ⟨u, hur, by simp [hum]⟩

/-- Claim C7 (corrected): group_addusers is a no-op when every supplied
username is already a member; otherwise it validates that every
supplied username exists, naming all unknown names at once, and then
issues its single modify carrying one add-member modification per
SUPPLIED username (not only per new one), so that a call mixing an
existing member with a new user is rejected whole by the directory. -/
theorem C7_group_addusers_behavior (s : St) (gname : String) (usernames : List String) (G : Group)
    (hG : firstGroupByName s.dir.groups gname = some G) :
    ((∀ u ∈ usernames, u ∈ G.member) → group_addusers gname usernames s = (s, none))
  ∧ (¬ (∀ u ∈ usernames, u ∈ G.member) →
      (usernames.filter (fun u => decide (u ∉ userNames s.dir)) ≠ [] →
        group_addusers gname usernames s =
          (s, some (Err.valueError ("Users " ++ String.intercalate ", "
            (usernames.filter (fun u => decide (u ∉ userNames s.dir))) ++ " do not exist"))))
      ∧ (usernames.filter (fun u => decide (u ∉ userNames s.dir)) = [] →
        group_addusers gname usernames s =
          connModifyGroup s gname (usernames.map GMod.addMember))
      ∧ (usernames.filter (fun u => decide (u ∉ userNames s.dir)) = [] →
          (∃ u ∈ usernames, u ∈ G.member) →
          ∃ e, group_addusers gname usernames s =
            ({ dir := s.dir,
               log := s.log ++ [WriteOp.modifyGroupEntry gname (usernames.map GMod.addMember)] },
             some e))) := by
  refine ⟨fun hall => group_addusers_noop hG hall, fun hnall => ⟨?_, ?_, ?_⟩⟩
  · intro hinc
    exact group_addusers_unknown hG hnall hinc
  · intro hinc
    exact group_addusers_eq_modify hG hnall hinc
  · intro hinc hmem
    obtain ⟨e, he⟩ := applyGMods_addMember_err hmem
    refine ⟨e, ?_⟩
    rw [group_addusers_eq_modify hG hnall hinc, connModifyGroup_err hG he]

/-- Claim C8 (corrected): group_delusers of an existing user that is
not a member is NOT a no-op: the engine issues a member-delete for the
absent value, the directory rejects it, and the call fails with the
noSuchAttribute error, leaving the directory contents unchanged. -/
theorem C8_group_delusers_nonmember_errors (s : St) (gname uname : String) (G : Group) (U : User)
    (hG : firstGroupByName s.dir.groups gname = some G)
    (hfil : s.dir.users.filter (fun u => decide (u.uid ∈ [uname])) = [U])
    (hUuid : U.uid = uname)
    (hnm : uname ∉ G.member) :
    group_delusers gname [uname] s =
      ({ dir := s.dir, log := s.log ++ [WriteOp.modifyGroupEntry gname [GMod.delMember uname]] },
       some (Err.ldapError "noSuchAttribute")) := by
  have hUmem : U ∈ s.dir.users := by
    have : U ∈ s.dir.users.filter (fun u => decide (u.uid ∈ [uname])) := by
      rw [hfil]; exact List.mem_singleton.mpr rfl
    exact List.mem_of_mem_filter this
  have hun : uname ∈ userNames s.dir := by
    simp only [userNames, List.mem_map]
    exact ⟨U, hUmem, hUuid⟩
  have hinc : ([uname] : List String).filter (fun u => decide (u ∉ userNames s.dir)) = [] := by
    simp [hun]
  rw [group_delusers_eq_modify hG hinc, hfil]
  simp only [List.map_cons, List.map_nil, hUuid]
  rw [connModifyGroup_err hG (applyGMods_delMember_single_err hnm)]

theorem group_addusers_single_new {s : St} {gname uname : String} {G : Group}
    (hG : firstGroupByName s.dir.groups gname = some G)
    (hmem : uname ∉ G.member)
    (hu : uname ∈ userNames s.dir) :
    group_addusers gname [uname] s =
      ({ dir := { users := s.dir.users,
                  groups := replaceGroup s.dir.groups gname
                    { cn := G.cn, gidNumber := G.gidNumber, member := G.member ++ [uname] } },
         log := s.log ++ [WriteOp.modifyGroupEntry gname [GMod.addMember uname]] }, none) := by
  rw [group_addusers_eq_modify hG (by simpa using hmem) (by simp [hu])]
  simp only [List.map_cons, List.map_nil]
  rw [connModifyGroup_ok hG (applyGMods_addMember_single hmem)]

/-- Claim C4 (corrected): adding a user with a groupname argument sets
the new user record gidNumber to the group id AND always appends the
username to that group member list (src line 530 joins the primary
group), even when no groups argument is passed. -/
theorem C4_user_add_joins_primary_group (c : Cfg) (s : St) (username gname : String) (uidv : Nat) (G : Group)
    (hname : ¬ usernameExists s.dir username)
    (huid : ¬ uidExists s.dir uidv)
    (hG : firstGroupByName s.dir.groups gname = some G)
    (hGgid : firstGroupByGid s.dir.groups G.gidNumber = some G)
    (hmem : username ∉ G.member) :
    user_add c username none none none none (some uidv) none none none none (some gname)
        none none none s =
      ({ dir := { users := s.dir.users ++
                    [{ uid := username, uidNumber := uidv, gidNumber := G.gidNumber,
                       cn := username, sn := username,
                       homeDirectory := c.homeBase ++ "/" ++ username, loginShell := c.shell,
                       shadowMin := "0", shadowMax := "99999", shadowWarning := "7",
                       shadowExpire := -1, shadowLastChange := c.today,
                       givenName := none, mail := none, telephoneNumber := none,
                       userPassword := none }],
                  groups := replaceGroup s.dir.groups gname
                    { cn := G.cn, gidNumber := G.gidNumber, member := G.member ++ [username] } },
         log := s.log ++ [WriteOp.addUserEntry username,
                          WriteOp.modifyGroupEntry gname [GMod.addMember username]] },
       none) := by
  have hcn : G.cn = gname := firstGroupByName_cn hG
  obtain ⟨⟨users, groups⟩, log⟩ := s
  simp only at hname huid hG hGgid hmem
  unfold user_add
  rw [if_neg hname]
  simp only [if_neg huid]
  unfold resolveAddGroup
  simp only [hG, hGgid, ne_eq, not_true_eq_false, ite_false, if_neg]
  simp only [Option.getD_none, Option.map_none']
  rw [opSeq_ok (connAddUser_ok hname)]
  simp only [Bool.false_eq_true, ite_false, opSeq, List.nil_append, forEachSt]
  rw [hcn]
  rw [group_addusers_single_new hG hmem (by simp [userNames])]
  simp [List.append_assoc, hcn]

theorem userNames_of_filter_eq {d : Dir} {uname : String} {U : User}
    (hfil : d.users.filter (fun u => decide (u.uid ∈ [uname])) = [U])
    (hUuid : U.uid = uname) :
    uname ∈ userNames d := by
  have hUmem : U ∈ d.users := by
    have h1 : U ∈ d.users.filter (fun u => decide (u.uid ∈ [uname])) := by
      rw [hfil]; exact List.mem_singleton.mpr rfl
    exact List.mem_of_mem_filter h1
  simp only [userNames, List.mem_map]
  exact ⟨U, hUmem, hUuid⟩

theorem group_delusers_single_ok {s : St} {gname uname : String} {G : Group} {U : User}
    (hG : firstGroupByName s.dir.groups gname = some G)
    (hfil : s.dir.users.filter (fun u => decide (u.uid ∈ [uname])) = [U])
    (hUuid : U.uid = uname)
    (hm : uname ∈ G.member) :
    group_delusers gname [uname] s =
      ({ dir := { users := s.dir.users,
                  groups := replaceGroup s.dir.groups gname
                    { cn := G.cn, gidNumber := G.gidNumber, member := G.member.erase uname } },
         log := s.log ++ [WriteOp.modifyGroupEntry gname [GMod.delMember uname]] }, none) := by
  have hun : uname ∈ userNames s.dir := userNames_of_filter_eq hfil hUuid
  rw [group_delusers_eq_modify hG (by simp [hun]), hfil]
  simp only [List.map_cons, List.map_nil, hUuid]
  rw [connModifyGroup_ok hG (applyGMods_delMember_single_ok hm)]

theorem group_delusers_single_err {s : St} {gname uname : String} {G : Group} {U : User}
    (hG : firstGroupByName s.dir.groups gname = some G)
    (hfil : s.dir.users.filter (fun u => decide (u.uid ∈ [uname])) = [U])
    (hUuid : U.uid = uname)
    (hnm : uname ∉ G.member) :
    group_delusers gname [uname] s =
      ({ dir := s.dir, log := s.log ++ [WriteOp.modifyGroupEntry gname [GMod.delMember uname]] },
       some (Err.ldapError "noSuchAttribute")) := by
  have hun : uname ∈ userNames s.dir := userNames_of_filter_eq hfil hUuid
  rw [group_delusers_eq_modify hG (by simp [hun]), hfil]
  simp only [List.map_cons, List.map_nil, hUuid]
  rw [connModifyGroup_err hG (applyGMods_delMember_single_err hnm)]

/-- Claim C10 (confirmed): user_modify with a groupname equal to the
user current primary group is treated as a primary-group change: the
gidNumber attribute is replaced with the same value, then the engine
deletes the user from that group member list and re-adds it.  When the
user is an explicit member the run succeeds with an unchanged member
set after the two group writes; when it is not, the member-delete
targets an absent value and the operation fails after the attribute
modify write has already been issued. -/
theorem C10_user_modify_same_primary_group (c : Cfg) (s : St) (uname : String) (U : User) (G : Group)
    (hU : firstUser s.dir.users uname = some U)
    (hfil : s.dir.users.filter (fun u => decide (u.uid ∈ [uname])) = [U])
    (hUuid : U.uid = uname)
    (hG : firstGroupByName s.dir.groups G.cn = some G)
    (hGgid : firstGroupByGid s.dir.groups G.gidNumber = some G)
    (hprim : U.gidNumber = G.gidNumber)
    (hnd : G.member.Nodup) :
    (uname ∈ G.member →
       user_modify c uname none none none none none none none none none (some G.cn) none none
           none s =
         ({ dir := { users := s.dir.users,
                     groups := replaceGroup s.dir.groups G.cn
                       { cn := G.cn, gidNumber := G.gidNumber,
                         member := G.member.erase uname ++ [uname] } },
            log := s.log ++ [WriteOp.modifyUserEntry uname [UMod.setGidNumber G.gidNumber],
                             WriteOp.modifyGroupEntry G.cn [GMod.delMember uname],
                             WriteOp.modifyGroupEntry G.cn [GMod.addMember uname]] }, none)
       ∧ ∀ x, (x ∈ G.member.erase uname ++ [uname] ↔ x ∈ G.member))
  ∧ (uname ∉ G.member →
       user_modify c uname none none none none none none none none none (some G.cn) none none
           none s =
         ({ dir := s.dir,
            log := s.log ++ [WriteOp.modifyUserEntry uname [UMod.setGidNumber G.gidNumber],
                             WriteOp.modifyGroupEntry G.cn [GMod.delMember uname]] },
          some (Err.ldapError "noSuchAttribute"))) := by
  obtain ⟨⟨users, groups⟩, log⟩ := s
  simp only at hU hfil hG hGgid
  have husername : usernameExists { users := users, groups := groups } uname := by
    rw [usernameExists_iff]
    exact userNames_of_filter_eq hfil hUuid
  have huniq : ∀ u ∈ users, u.uid = uname → u = U := by
    intro u hu he
    have h1 : u ∈ users.filter (fun v => decide (v.uid ∈ [uname])) :=
      List.mem_filter.mpr ⟨hu, by simp [he]⟩
    rw [hfil] at h1
    simpa using h1
  have hupdate : updateUser users uname
      (fun u => applyUMods u [UMod.setGidNumber G.gidNumber]) = users := by
    refine updateUser_id ?_
    intro u hu he
    rw [huniq u hu he]
    show applyUMods U [UMod.setGidNumber G.gidNumber] = U
    simp only [applyUMods, List.foldl_cons, List.foldl_nil, applyUMod]
    rw [← hprim]
  have hGgid2 : firstGroupByGid groups U.gidNumber = some G := by rw [hprim]; exact hGgid
  constructor
  · intro hm
    constructor
    · unfold user_modify
      simp only [userShow, hU, Option.isSome_none, Bool.false_eq_true, ite_false]
      unfold resolveModifyGroup
      simp only [hG, hGgid, hGgid2, Option.getD_none, optMod, List.nil_append, List.append_nil]
      rw [opSeq_ok (connModifyUser_ok husername)]
      rw [hupdate]
      rw [group_delusers_single_ok hG hfil hUuid hm]
      simp only [opSeq]
      have hmem2 : uname ∉ (Obol.Group.mk G.cn G.gidNumber (G.member.erase uname)).member :=
        hnd.not_mem_erase
      have hG2 : firstGroupByName (replaceGroup groups G.cn
            (Obol.Group.mk G.cn G.gidNumber (G.member.erase uname))) G.cn =
          some (Obol.Group.mk G.cn G.gidNumber (G.member.erase uname)) :=
        firstGroupByName_replaceGroup hG rfl
      have hrr : replaceGroup (replaceGroup groups G.cn
            (Obol.Group.mk G.cn G.gidNumber (G.member.erase uname))) G.cn
            (Obol.Group.mk G.cn G.gidNumber (G.member.erase uname ++ [uname])) =
          replaceGroup groups G.cn
            (Obol.Group.mk G.cn G.gidNumber (G.member.erase uname ++ [uname])) :=
        replaceGroup_replaceGroup hG rfl
      rw [group_addusers_single_new hG2 hmem2 (userNames_of_filter_eq hfil hUuid)]
      simp only [opSeq, forEachSt]
      simp [hrr, List.append_assoc]
    · intro x
      simp only [List.mem_append, List.mem_singleton]
      by_cases hx : x = uname
      · subst hx; simp [hm]
      · simp [List.mem_erase_of_ne hx, hx]
  · intro hm
    unfold user_modify
    simp only [userShow, hU, Option.isSome_none, Bool.false_eq_true, ite_false]
    unfold resolveModifyGroup
    simp only [hG, hGgid, hGgid2, Option.getD_none, optMod, List.nil_append, List.append_nil]
    rw [opSeq_ok (connModifyUser_ok husername)]
    rw [hupdate]
    rw [group_delusers_single_err hG hfil hUuid hm]
    simp [opSeq, forEachSt, List.append_assoc]


/-- A minimal plain user record (no optional attributes) used by the
concrete directories below. -/
def plainUser (n : String) (u g : Nat) : User :=
  { uid := n, uidNumber := u, gidNumber := g, cn := n, sn := n,
    homeDirectory := "/home/" ++ n, loginShell := "/bin/bash",
    shadowMin := "0", shadowMax := "99999", shadowWarning := "7",
    shadowExpire := -1, shadowLastChange := 20000,
    givenName := none, mail := none, telephoneNumber := none, userPassword := none }

/-- Directory for the C2 run: group dev with members alice and dan;
users alice, dan and carol whose primary groups are elsewhere. -/
def stC2 : St :=
  { dir := { users := [plainUser "alice" 1050 151, plainUser "dan" 1051 151,
                       plainUser "carol" 1052 151],
             groups := [{ cn := "dev", gidNumber := 150, member := ["alice", "dan"] }] },
    log := [] }

/-- Directory for the C4 runs: an empty group dev. -/
def stC4 : St :=
  { dir := { users := [], groups := [{ cn := "dev", gidNumber := 150, member := [] }] },
    log := [] }

/-- Directory for the C5 run: two distinct groups dev (gid 150) and
ops (gid 200). -/
def stC5 : St :=
  { dir := { users := [],
             groups := [{ cn := "dev", gidNumber := 150, member := [] },
                        { cn := "ops", gidNumber := 200, member := [] }] },
    log := [] }

/-- A populated user for the C6 round trip: pre-hashed password,
absolute shadowExpire 100, shadowLastChange 37. -/
def aliceExportU : User :=
  { uid := "alice", uidNumber := 1050, gidNumber := 150, cn := "alice", sn := "alice",
    homeDirectory := "/home/alice", loginShell := "/bin/bash",
    shadowMin := "0", shadowMax := "99999", shadowWarning := "7",
    shadowExpire := 100, shadowLastChange := 37,
    givenName := none, mail := none, telephoneNumber := none,
    userPassword := some "{SSHA}abc" }

/-- Directory for the C6 round trip: one user whose primary group dev
has an empty member list (so that erase can succeed at all). -/
def stC6 : St :=
  { dir := { users := [aliceExportU],
             groups := [{ cn := "dev", gidNumber := 150, member := [] }] },
    log := [] }

/-- Directory for the C7 runs: users alice and bob; group dev already
listing alice as a member. -/
def stC7 : St :=
  { dir := { users := [plainUser "alice" 1050 151, plainUser "bob" 1051 151],
             groups := [{ cn := "dev", gidNumber := 150, member := ["alice"] }] },
    log := [] }

/-- Directory for the C8 runs: user alice exists, group dev has no
members. -/
def stC8 : St :=
  { dir := { users := [plainUser "alice" 1050 151],
             groups := [{ cn := "dev", gidNumber := 150, member := [] }] },
    log := [] }

/-- Directory for the C10 witness: alice has primary group dev and is
an explicit member of it alongside a second entry. -/
def stC10 : St :=
  { dir := { users := [plainUser "alice" 1050 150],
             groups := [{ cn := "dev", gidNumber := 150, member := ["alice", "zed"] }] },
    log := [] }

/-- Claim C1 (code bug): a successful sequence of public operations
(group_add dev, user_add carol with no group arguments,
group_addusers dev carol, user_delete carol) ends with no users but
with carol still on the member list of group dev: the invariant that
every group member is an existing user is violated, because
user_delete never removes the deleted username from member lists and
the directory does not cascade. -/
theorem C1_user_delete_leaves_stale_member :
    (opSeq (group_add "dev" none none emptySt) (fun s1 =>
     opSeq (user_add obolCfg "carol" none none none none none none none none none none none
        none none s1) (fun s2 =>
     opSeq (group_addusers "dev" ["carol"] s2) (fun s3 =>
     user_delete "carol" s3)))).2 = none ∧
    (opSeq (group_add "dev" none none emptySt) (fun s1 =>
     opSeq (user_add obolCfg "carol" none none none none none none none none none none none
        none none s1) (fun s2 =>
     opSeq (group_addusers "dev" ["carol"] s2) (fun s3 =>
     user_delete "carol" s3)))).1.dir.users = [] ∧
    (∃ g ∈ (opSeq (group_add "dev" none none emptySt) (fun s1 =>
     opSeq (user_add obolCfg "carol" none none none none none none none none none none none
        none none s1) (fun s2 =>
     opSeq (group_addusers "dev" ["carol"] s2) (fun s3 =>
     user_delete "carol" s3)))).1.dir.groups, g.cn = "dev" ∧ "carol" ∈ g.member) := by
  have h1 := group_add_alloc_run "dev" 150 emptySt (by decide) next_gid_nil
  rw [opSeq_ok h1]
  have h2 := user_add_default_run obolCfg "carol" 1050 151
    ({ dir := { users := emptySt.dir.users,
                groups := emptySt.dir.groups ++ [{ cn := "dev", gidNumber := 150, member := [] }] },
       log := emptySt.log ++ [WriteOp.addGroupEntry "dev"] })
    (by decide) next_uid_nil (by decide) next_gid_dev (by decide)
  rw [opSeq_ok h2]
  decide

/-- Claim C2 (code bug): with current members alice and dan and desired
member list alice and carol, group_modify completes successfully but
leaves the member set as exactly carol: the source computes the members
to delete without consulting the desired list, so the desired member
alice is removed as well. -/
theorem C2_group_modify_removes_desired_member :
    (group_modify "dev" none (some ["alice", "carol"]) stC2).2 = none ∧
    (group_modify "dev" none (some ["alice", "carol"]) stC2).1.dir.groups =
      [{ cn := "dev", gidNumber := 150, member := ["carol"] }] := by
  decide

/-- Claim C3 (code bug): adding user bob with no group arguments and
then deleting it leaves the auto-created default group bob in place
with the deleted username still on its member list, because user_add
put bob on the member list, user deletion does not cascade, and the
engine only deletes the group when the member list is empty. -/
theorem C3_default_group_survives_delete :
    (opSeq (user_add obolCfg "bob" none none none none none none none none none none none none
        none emptySt) (fun s => user_delete "bob" s)).2 = none ∧
    (opSeq (user_add obolCfg "bob" none none none none none none none none none none none none
        none emptySt) (fun s => user_delete "bob" s)).1.dir.users = [] ∧
    (opSeq (user_add obolCfg "bob" none none none none none none none none none none none none
        none emptySt) (fun s => user_delete "bob" s)).1.dir.groups =
      [{ cn := "bob", gidNumber := 150, member := ["bob"] }] := by
  have h1 := user_add_default_run obolCfg "bob" 1050 150 emptySt (by decide) next_uid_nil
    (by decide) next_gid_nil (by decide)
  rw [opSeq_ok h1]
  decide

/-- Claim C4 counterexample: adding alice with groupname dev succeeds
and changes the dev member list to contain alice, refuting the claim
that the member list is left unchanged when no groups argument is
passed. -/
theorem C4_counterexample :
    (user_add obolCfg "alice" none none none none (some 1050) none none none none
        (some "dev") none none none stC4).2 = none ∧
    (user_add obolCfg "alice" none none none none (some 1050) none none none none
        (some "dev") none none none stC4).1.dir.groups =
      [{ cn := "dev", gidNumber := 150, member := ["alice"] }] := by
  decide

/-- Witness for C4 at a concrete input: the amended theorem applied to
the stC4 directory. -/
theorem C4_witness :
    user_add obolCfg "alice" none none none none (some 1050) none none none none (some "dev")
        none none none stC4 =
      ({ dir := { users := [plainUser "alice" 1050 150],
                  groups := [{ cn := "dev", gidNumber := 150, member := ["alice"] }] },
         log := [WriteOp.addUserEntry "alice",
                 WriteOp.modifyGroupEntry "dev" [GMod.addMember "alice"]] }, none) := by
  have h := C4_user_add_joins_primary_group obolCfg stC4 "alice" "dev" 1050
    { cn := "dev", gidNumber := 150, member := [] }
    (by decide) (by decide) (by decide) (by decide) (by decide)
  rw [h]
  decide

/-- Claim C5 (code bug): supplying groupname dev together with the gid
of the different group ops succeeds with no error instead of failing
with a conflict: the supplied gid is overwritten by the gid of the
named group before the cross-reference comparison (src line 436), so
alice is created with gid 150 and directory writes are issued. -/
theorem C5_conflicting_gid_not_rejected :
    (user_add obolCfg "alice" none none none none (some 1050) (some 200) none none none
        (some "dev") none none none stC5).2 = none ∧
    (∃ u ∈ (user_add obolCfg "alice" none none none none (some 1050) (some 200) none none none
        (some "dev") none none none stC5).1.dir.users, u.uid = "alice" ∧ u.gidNumber = 150) ∧
    (user_add obolCfg "alice" none none none none (some 1050) (some 200) none none none
        (some "dev") none none none stC5).1.log ≠ [] := by
  decide

/-- Claim C6 (code bug): export, erase, import, export does not
reproduce the first export: the run completes successfully, but the
second export differs field-for-field — in particular the imported
shadowExpire is re-offset by the current day number (100 becomes
20100), shadowLastChange is reset, and the primary group gains the
user as an explicit member. -/
theorem C6_roundtrip_not_identity :
    (obolErase stC6).2 = none ∧
    (obolImport obolCfg (obolExport stC6.dir) (obolErase stC6).1).2 = none ∧
    obolExport ((obolImport obolCfg (obolExport stC6.dir) (obolErase stC6).1).1.dir) ≠
      obolExport stC6.dir ∧
    (∃ ux ∈ (obolExport ((obolImport obolCfg (obolExport stC6.dir)
        (obolErase stC6).1).1.dir)).users,
      ux.entry.uid = "alice" ∧ ux.entry.shadowExpire = 20100) := by
  decide

/-- Claim C7 counterexample: calling group_addusers with one existing
member (alice) and one new user (bob) issues an add-member write for
the already-member alice as well, and the whole modify is rejected by
the directory, refuting the claim that already-member usernames
produce no add-member write. -/
theorem C7_counterexample :
    (group_addusers "dev" ["alice", "bob"] stC7).2 =
      some (Err.ldapError "attributeOrValueExists") ∧
    (group_addusers "dev" ["alice", "bob"] stC7).1.log =
      [WriteOp.modifyGroupEntry "dev" [GMod.addMember "alice", GMod.addMember "bob"]] ∧
    (group_addusers "dev" ["alice", "bob"] stC7).1.dir = stC7.dir := by
  decide

/-- Witness for C7 at a concrete input: the all-members no-op case. -/
theorem C7_witness :
    group_addusers "dev" ["alice"] stC7 = (stC7, none) :=
  (C7_group_addusers_behavior stC7 "dev" ["alice"]
    { cn := "dev", gidNumber := 150, member := ["alice"] } (by decide)).1 (by decide)

/-- Claim C8 counterexample: group_delusers of the existing non-member
alice fails with the noSuchAttribute rejection instead of being a
no-op, refuting the claim that it succeeds without error. -/
theorem C8_counterexample :
    (group_delusers "dev" ["alice"] stC8).2 = some (Err.ldapError "noSuchAttribute") ∧
    (group_delusers "dev" ["alice"] stC8).1.dir = stC8.dir := by
  decide

/-- Witness for C8 at a concrete input. -/
theorem C8_witness :
    group_delusers "dev" ["alice"] stC8 =
      ({ dir := stC8.dir,
         log := stC8.log ++ [WriteOp.modifyGroupEntry "dev" [GMod.delMember "alice"]] },
       some (Err.ldapError "noSuchAttribute")) :=
  C8_group_delusers_nonmember_errors stC8 "dev" "alice"
    { cn := "dev", gidNumber := 150, member := [] } (plainUser "alice" 1050 151)
    (by decide) (by decide) (by decide) (by decide)

/-- Witness for C10 at a concrete input: alice is an explicit member of
its primary group dev, and the run succeeds leaving the member set
unchanged (rotated to the end) after the two group writes. -/
theorem C10_witness :
    user_modify obolCfg "alice" none none none none none none none none none (some "dev")
        none none none stC10 =
      ({ dir := { users := [plainUser "alice" 1050 150],
                  groups := [{ cn := "dev", gidNumber := 150, member := ["zed", "alice"] }] },
         log := [WriteOp.modifyUserEntry "alice" [UMod.setGidNumber 150],
                 WriteOp.modifyGroupEntry "dev" [GMod.delMember "alice"],
                 WriteOp.modifyGroupEntry "dev" [GMod.addMember "alice"]] }, none) := by
  have h := ((C10_user_modify_same_primary_group obolCfg stC10 "alice"
    (plainUser "alice" 1050 150) { cn := "dev", gidNumber := 150, member := ["alice", "zed"] }
    (by decide) (by decide) (by decide) (by decide) (by decide) (by decide) (by decide)).1
    (by decide)).1
  rw [h]
  decide

end Obol
